import Mathlib

/-!
Verification development for the acspmon AP monitor.

The definitions below are a shallow embedding of `acspmon.py` (Python 2):
pure helpers are translated directly, the stateful update methods become
functions from the old record to the new record, machine integers are `Int`
with Python's floor division modelled by `Int.fdiv`, floating point
arithmetic is idealised over `ℝ` (exact reals), and fallible code returns
`Option` (with `none` standing for a raised exception).
-/

namespace Acspmon

/-- Python's minimum "native" integer, `-sys.maxint - 1` on a 64-bit build. -/
def PY_MININT : ℤ := -(2 ^ 63)

/-- Split a character list at the first occurrence of `pat`, returning the
text before and after the occurrence (the occurrence itself removed), or
`none` when `pat` does not occur. -/
def splitFirst (pat : List Char) : List Char → Option (List Char × List Char)
  | [] => if pat.isPrefixOf ([] : List Char) then some ([], []) else none
  | c :: t =>
    if pat.isPrefixOf (c :: t) then some ([], (c :: t).drop pat.length)
    else
      match splitFirst pat t with
      | none => none
      | some (pre, post) => some (c :: pre, post)

/-- Python's `pat in s` substring test (for nonempty `pat`). -/
def py_in (pat s : String) : Bool := (splitFirst pat.data s.data).isSome

/-- Python's `s[:n] == pat` test for `n = len(pat)`. -/
def py_startswith (pat s : String) : Bool := pat.data.isPrefixOf s.data

/-- Decimal digit-string value, or `none` if empty or non-numeric. -/
def py_digits (ds : List Char) : Option ℕ :=
  if ds ≠ [] ∧ ds.all (·.isDigit) then
    some (ds.foldl (fun a c => a * 10 + (c.toNat - 48)) 0)
  else none

/-- Python's `int(str)` conversion, approximated: surrounding spaces are
stripped and an optionally negated decimal integer is parsed; any other
input raises (returns `none`). -/
def py_int_of (s : String) : Option ℤ :=
  let cs := ((s.data.dropWhile (· = ' ')).reverse.dropWhile (· = ' ')).reverse
  match cs with
  | '-' :: ds => (py_digits ds).map (fun n => -(n : ℤ))
  | ds => (py_digits ds).map (fun n => (n : ℤ))

/-- Tunable `RF_SMOOTH_WINDOW` (source line 67). -/
def RF_SMOOTH_WINDOW : ℕ := 3

/-- Tunable `CANVAS_WIDTH` (source line 56). -/
def CANVAS_WIDTH : ℤ := 800

/-- Tunable `CANVAS_HEIGHT` (source line 57). -/
def CANVAS_HEIGHT : ℤ := 600

/-- `Radio.ieee2ghz` (source lines 564-576): channel number to frequency in
GHz.  A channel of 0 is first remapped to the sentinel 200.  The float
`mhz / 1000.0` is exact here, so we use `ℚ`. -/
def ieee2ghz (chnl : ℤ) : ℚ :=
  let c := if chnl = 0 then 200 else chnl
  let mhz : ℤ :=
    if c = 14 then 2484
    else if c < 14 then 2407 + c * 5
    else if c < 27 then 2512 + (c - 15) * 20
    else 5000 + c * 5
  (mhz : ℚ) / 1000

/-- The smoothing-window push used for the noise floor (lines 661-663) and
for per-neighbor RSSI (lines 433-435): append the sample, then if the
length exceeds `RF_SMOOTH_WINDOW` drop the oldest element (`pop(0)`). -/
def push_window (w : List ℤ) (s : ℤ) : List ℤ :=
  let w2 := w ++ [s]
  if RF_SMOOTH_WINDOW < w2.length then w2.tail else w2

/-- The smoothed value `sum(window) / len(window)` with Python 2 floor
division (lines 436 and 664).  Only ever called on a nonempty window. -/
def window_mean (w : List ℤ) : ℤ := w.sum.fdiv (w.length : ℤ)

/-- `ACSP.CHNL_STATE_DISABLE` (source line 365). -/
def CHNL_STATE_DISABLE : String := "Disable"

/-- `ACSP.CHNL_STATE_INIT` (source line 366). -/
def CHNL_STATE_INIT : String := "Init"

/-- `ACSP.CHNL_STATE_SCAN` (source line 367). -/
def CHNL_STATE_SCAN : String := "Scanning"

/-- `ACSP.CHNL_STATE_LISTEN` (source line 370). -/
def CHNL_STATE_LISTEN : String := "Listening"

/-- `ACSP.CHNL_STATE_RUN` (source line 371). -/
def CHNL_STATE_RUN : String := "Enable"

/-- `ACSP.CHNL_STATE_SCHED_WAIT` (source line 372). -/
def CHNL_STATE_SCHED_WAIT : String := "Sched_Waiting"

/-- What `Radio.calc_nbr_score` reads from one neighbor entry: its smoothed
RSSI (`nbr.rssi`) and the channel state of the neighbor's radio
(`nbr.radio.chnl_state`, a string or Python `None`). -/
structure ScoreNbr where
  rssi : ℤ
  chnl_state : Option String
deriving DecidableEq

/-- `Radio.calc_nbr_score` (source lines 635-653).  All divisions are
Python 2 integer (floor) divisions.  A radio with no neighbors scores
`-sys.maxint - 1`. -/
def calc_nbr_score (avr_nfloor : ℤ) (nbrs : List ScoreNbr) : ℤ :=
  if nbrs.isEmpty then PY_MININT
  else
    nbrs.foldl (fun score nbr =>
      let snr := nbr.rssi - avr_nfloor
      let s := nbr.chnl_state
      if s = some CHNL_STATE_DISABLE ∨ s = some CHNL_STATE_RUN then
        score + snr.fdiv 2
      else if s = some CHNL_STATE_SCAN ∨ s = some CHNL_STATE_LISTEN then
        score + snr.fdiv 4
      else if s = some CHNL_STATE_INIT ∨ s = some CHNL_STATE_SCHED_WAIT then
        score + snr.fdiv 6
      else
        score + snr.fdiv 8) 0

/-- One `show acsp neighbor` row matching a neighbor radio, already reduced
to the integers the source extracts from it (lines 425-429): the RSSI, the
station count, the CRC digit, and the channel utilization. -/
structure VapRow where
  rssi : ℤ
  sta : ℤ
  crc : ℤ
  cu : ℤ
deriving DecidableEq

/-- The fields of an `ACSPNbr` entry that `update_acsp_nbrs` fills in
(lines 433-438).  `tot_cu` is computed by the source but never stored, so
it is omitted here as well. -/
structure NbrStats where
  rssi_window : List ℤ
  rssi : ℤ
  sta_cnt : ℤ
  crc_err : ℤ
deriving DecidableEq

/-- Building one neighbor entry from its matching rows (lines 415-438): a
fresh `ACSPNbr` is allocated with an empty RSSI window, the per-poll mean
RSSI is pushed into it, and the smoothed RSSI is the window mean. -/
def mk_nbr_entry (vaps : List VapRow) : NbrStats :=
  let tot_rssi := (vaps.map (·.rssi)).sum
  let tot_sta := (vaps.map (·.sta)).sum
  let tot_crc := (vaps.map (·.crc)).sum
  let w := push_window [] (tot_rssi.fdiv (vaps.length : ℤ))
  { rssi_window := w
    rssi := window_mean w
    sta_cnt := tot_sta
    crc_err := tot_crc.fdiv (vaps.length : ℤ) }

/-- `ACSP.update_acsp_nbrs` (source lines 397-472), restricted to its data
flow: `self.nbrs = {}` discards the previous neighbor map (hence the unused
`_prev`), and for every other radio whose MAC prefix matched at least one
row a fresh entry is built.  `obs` lists, per neighbor MAC, the rows of
`show acsp neighbor` that matched it, pre-parsed into integers. -/
def update_acsp_nbrs (_prev : List (String × NbrStats))
    (obs : List (String × List VapRow)) : List (String × NbrStats) :=
  obs.filterMap fun mv => if mv.2.isEmpty then none else some (mv.1, mk_nbr_entry mv.2)

/-- The lazy capture `pre(.+?)post` of the `PTN_RADIO` regexes (lines
529-533) as used by `re.search`: find the first occurrence of `pre`, then
capture the (nonempty) text up to the first following occurrence of `post`.
Backtracking to a later occurrence of `pre` is not modelled; the device
outputs parsed here contain each key at most once. -/
def regex_capture (text pre post : String) : Option String :=
  match splitFirst pre.data text.data with
  | none => none
  | some (_, after) =>
    match splitFirst post.data after with
    | none => none
    | some (cap, _) => if cap = [] then none else some (String.mk cap)

/-- The fields of a `Radio` record written by `update_radio_stats`
(lines 655-667). -/
structure RadioParse where
  mode : Option String := none
  phymode : Option String := none
  band : Option ℤ := none
  nfloor_window : List ℤ := []
  nfloor : Option ℤ := none
deriving DecidableEq

/-- `Radio.update_radio_stats`'s parsing block (source lines 656-667).  The
assignments happen in source order, so a failing later regex leaves the
earlier fields already overwritten; the `Bool` is `false` when the block
raises (the iteration is then abandoned by `update_ap_stats`, line 731). -/
def update_radio_stats (r : RadioParse) (out : String) : RadioParse × Bool :=
  match regex_capture out "Mode=" ";" with
  | none => (r, false)
  | some m =>
    let r1 := { r with mode := some m }
    match regex_capture out "Phymode=" ";" with
    | none => (r1, false)
    | some p =>
      let r2 := { r1 with
        phymode := some p
        band := some (if p.data.contains 'a' then 5 else 2) }
      match (regex_capture out "Noise floor=" "dBm;").bind py_int_of with
      | none => (r2, false)
      | some nf =>
        let w := push_window r2.nfloor_window nf
        ({ r2 with nfloor_window := w, nfloor := some (window_mean w) }, true)

/-- The observable inputs of one `detect_ap` run (source lines 737-792):
whether `ssh_open` succeeded, the lines returned by
`show interface | in wifi0` (`none` for a `None` result), the parsed
`(mac, hive)` pair and platform name (`none` when the respective index or
split raised), and the state of any existing entry in `APS`. -/
structure DetectInput where
  ssh_ok : Bool
  wifi0_out : Option (List String)
  mgt0_parse : Option (String × String)
  platform : Option String
  already_in_aps : Bool
  was_active : Bool
deriving DecidableEq

/-- The externally visible outcome of one `detect_ap` run. -/
structure DetectResult where
  removed_from_nodes : Bool
  sr_alert : Bool
  added_to_aps : Bool
  poller_runs : Bool
  crashed : Bool
deriving DecidableEq

/-- `detect_ap` (source lines 737-792).  A connection failure or a probe
output without `Wifi0` deletes the node from `NODES` and stops.  A
mac/hive/platform parse failure deletes the node from `NODES` but falls
through (no `return`), and the subsequent `node.name[:2]` on the still-unset
name raises, killing the thread (`crashed`).  A platform name starting with
`SR` only logs an alert ("Treat SR switch as AP by mistake"); the node is
still inserted into `APS` and the polling loop is entered. -/
def detect_ap (inp : DetectInput) : DetectResult :=
  if inp.ssh_ok = false then
    { removed_from_nodes := true, sr_alert := false, added_to_aps := false
      poller_runs := false, crashed := false }
  else
    match inp.wifi0_out with
    | none =>
      { removed_from_nodes := true, sr_alert := false, added_to_aps := false
        poller_runs := false, crashed := false }
    | some out =>
      if out.isEmpty || !py_in "Wifi0" (String.join out) then
        { removed_from_nodes := true, sr_alert := false, added_to_aps := false
          poller_runs := false, crashed := false }
      else
        match inp.mgt0_parse, inp.platform with
        | some _, some name =>
          let sr := py_startswith "SR" name
          if inp.already_in_aps && inp.was_active then
            { removed_from_nodes := false, sr_alert := sr, added_to_aps := false
              poller_runs := false, crashed := false }
          else
            { removed_from_nodes := false, sr_alert := sr
              added_to_aps := !inp.already_in_aps, poller_runs := true
              crashed := false }
        | _, _ =>
          { removed_from_nodes := true, sr_alert := false, added_to_aps := false
            poller_runs := false, crashed := true }

/-- `IFNAME_WIFI0` (source line 40). -/
def IFNAME_WIFI0 : String := "wifi0"

/-- `IFNAME_WIFI1` (source line 41). -/
def IFNAME_WIFI1 : String := "wifi1"

open Classical

/-- `distance` between two points (source lines 826-829). -/
noncomputable def distance (p1 p2 : ℝ × ℝ) : ℝ :=
  Real.sqrt ((p1.1 - p2.1) ^ 2 + (p1.2 - p2.2) ^ 2)

set_option maxHeartbeats 1000000 in
/-- `circles_cpoints` (source lines 848-875): the intersection points of two
circles, transcribing the closed-form solution literally.  The Python pair
`(code, list-or-None)` becomes `(code, list)` with `[]` for `None`.  The
compensation step may enlarge the smaller radius; `R1`/`R2` are the
possibly-updated radii used by all later expressions, exactly as the Python
code mutates `r1`/`r2` in place. -/
noncomputable def circles_cpoints (c1 : ℝ × ℝ) (r1 : ℝ) (c2 : ℝ × ℝ) (r2 : ℝ)
    (compensate : Bool) : ℤ × List (ℝ × ℝ) :=
  let x1 := c1.1
  let y1 := c1.2
  let x2 := c2.1
  let y2 := c2.2
  let d := distance c1 c2
  if d = 0 then (-1, [])
  else
    let comp := d < |r1 - r2| ∧ compensate = true
    let R1 := if comp ∧ r1 < r2 then r1 + (r2 - r1 - d) else r1
    let R2 := if comp ∧ ¬ r1 < r2 then r2 + (r1 - r2 - d) else r2
    if |R1 - R2| ≤ d ∧ d ≤ R1 + R2 then
      let p1 : ℝ × ℝ :=
        (((y1 - y2) * (-x1^2*y1 - x1^2*y2 + 2*x1*x2*y1 + 2*x1*x2*y2 - x2^2*y1 - x2^2*y2
              - y1^3 + y1^2*y2 + y1*y2^2 + y1*R1^2 - y1*R2^2 - y2^3 - y2*R1^2 + y2*R2^2
              + Real.sqrt ((x1 - x2)^2
                  * (-x1^2 + 2*x1*x2 - x2^2 - y1^2 + 2*y1*y2 - y2^2 + R1^2 + 2*R1*R2 + R2^2)
                  * (x1^2 - 2*x1*x2 + x2^2 + y1^2 - 2*y1*y2 + y2^2 - R1^2 + 2*R1*R2 - R2^2)))
            + (x1^2 - x2^2 + y1^2 - y2^2 - R1^2 + R2^2)
              * (x1^2 - 2*x1*x2 + x2^2 + y1^2 - 2*y1*y2 + y2^2))
          / (2 * (x1 - x2) * (x1^2 - 2*x1*x2 + x2^2 + y1^2 - 2*y1*y2 + y2^2)),
         (Real.sqrt ((x1 - x2)^2
              * (-x1^2 + 2*x1*x2 - x2^2 - y1^2 + 2*y1*y2 - y2^2 + R1^2 + 2*R1*R2 + R2^2)
              * (x1^2 - 2*x1*x2 + x2^2 + y1^2 - 2*y1*y2 + y2^2 - R1^2 + 2*R1*R2 - R2^2))
            * (-x1^2 + 2*x1*x2 - x2^2 - y1^2 + 2*y1*y2 - y2^2)
          + (x1^2 - 2*x1*x2 + x2^2 + y1^2 - 2*y1*y2 + y2^2)
            * (x1^2*y1 + x1^2*y2 - 2*x1*x2*y1 - 2*x1*x2*y2 + x2^2*y1 + x2^2*y2
               + y1^3 - y1^2*y2 - y1*y2^2 - y1*R1^2 + y1*R2^2 + y2^3 + y2*R1^2 - y2*R2^2))
          / (2 * (x1^2 - 2*x1*x2 + x2^2 + y1^2 - 2*y1*y2 + y2^2)^2))
      let p2 : ℝ × ℝ :=
        (-((y1 - y2) * (x1^2*y1 + x1^2*y2 - 2*x1*x2*y1 - 2*x1*x2*y2 + x2^2*y1 + x2^2*y2
              + y1^3 - y1^2*y2 - y1*y2^2 - y1*R1^2 + y1*R2^2 + y2^3 + y2*R1^2 - y2*R2^2
              + Real.sqrt ((x1 - x2)^2
                  * (-x1^2 + 2*x1*x2 - x2^2 - y1^2 + 2*y1*y2 - y2^2 + R1^2 + 2*R1*R2 + R2^2)
                  * (x1^2 - 2*x1*x2 + x2^2 + y1^2 - 2*y1*y2 + y2^2 - R1^2 + 2*R1*R2 - R2^2)))
            - (x1^2 - x2^2 + y1^2 - y2^2 - R1^2 + R2^2)
              * (x1^2 - 2*x1*x2 + x2^2 + y1^2 - 2*y1*y2 + y2^2))
          / (2 * (x1 - x2) * (x1^2 - 2*x1*x2 + x2^2 + y1^2 - 2*y1*y2 + y2^2)),
         (x1^2*y1 + x1^2*y2 - 2*x1*x2*y1 - 2*x1*x2*y2 + x2^2*y1 + x2^2*y2
            + y1^3 - y1^2*y2 - y1*y2^2 - y1*R1^2 + y1*R2^2 + y2^3 + y2*R1^2 - y2*R2^2
            + Real.sqrt ((x1 - x2)^2
                * (-x1^2 + 2*x1*x2 - x2^2 - y1^2 + 2*y1*y2 - y2^2 + R1^2 + 2*R1*R2 + R2^2)
                * (x1^2 - 2*x1*x2 + x2^2 + y1^2 - 2*y1*y2 + y2^2 - R1^2 + 2*R1*R2 - R2^2)))
          / (2 * (x1^2 - 2*x1*x2 + x2^2 + y1^2 - 2*y1*y2 + y2^2)))
      if d = R1 + R2 ∨ d = |R1 - R2| then
        ((if comp then 0 else 1), [p1])
      else
        (2, [p1, p2])
    else (-1, [])

/-- Python `int()` applied to a float: truncation toward zero. -/
noncomputable def pyint (x : ℝ) : ℤ := if 0 ≤ x then ⌊x⌋ else ⌈x⌉

/-- The FSPL-derived reference distance in canvas dots,
`int(pow(10, (fspl - 32.44 - 20*log10(ghz)) / 20) / CANVAS_METER_PER_DOT)`
(source lines 1074, 1095 and 1124). -/
noncomputable def fspl_to_dots (fspl ghz mpd : ℝ) : ℤ :=
  pyint ((10 : ℝ) ^ ((fspl - 32.44 - 20 * Real.logb 10 ghz) / 20) / mpd)

/-- Line 1079: the second placed AP goes straight right of its reference,
`rd0.c = [ref1_rd.c[0] + d1, ref1_rd.c[1]]`. -/
noncomputable def place_req1 (refc : ℝ × ℝ) (d1 : ℤ) : ℝ × ℝ :=
  (refc.1 + (d1 : ℝ), refc.2)

/-- Lines 1128-1152 of `calc_ap_coord`: the `req ≥ 3` placement decision
once `d1`, `d2`, `d3` are known.  No cross point defers the AP (`none`).
With two cross points the code compares `|d3 - n1|` against `|d3 - n2|`
where `n1`/`n2` are the distances from the centers of `ref1`/`ref2` to
`ref3`, and picks `points[1][0]` or `points[1][1]` accordingly. -/
noncomputable def choose_cpoint_req3 (c1 : ℝ × ℝ) (d1 : ℝ) (c2 : ℝ × ℝ) (d2 : ℝ)
    (c3 : ℝ × ℝ) (d3 : ℝ) : Option (ℝ × ℝ) :=
  let points := circles_cpoints c1 d1 c2 d2 false
  if points.1 < 0 then none
  else if points.1 ≤ 1 then points.2[0]?
  else
    let n1 := distance c1 c3
    let n2 := distance c2 c3
    if |d3 - n1| < |d3 - n2| then points.2[0]? else points.2[1]?

/-- `Radio.show`'s coverage radius (source lines 610-612):
`int(pow(10, (txpwr - 32.44 - 20*log10(ghz) - nfloor) / 20) / CANVAS_METER_PER_DOT)`
with `ghz = ieee2ghz(chnl)` and `nfloor = RF_AVR_NFLOOR + RF_AVR_NFLOOR_MARGIN`. -/
noncomputable def coverage_radius (txpwr chnl avr_nfloor margin : ℤ) (mpd : ℝ) : ℤ :=
  let ghz : ℝ := ((ieee2ghz chnl : ℚ) : ℝ)
  let nfloor : ℝ := (avr_nfloor : ℝ) + (margin : ℝ)
  pyint ((10 : ℝ) ^ (((txpwr : ℝ) - 32.44 - 20 * Real.logb 10 ghz - nfloor) / 20) / mpd)

/-- The view of a `Radio` object used by the positioning engine.  Python's
object-identity tests (`ref_rd.ap != ref1_ap`, `rd0 in ...nbrs_radios`) are
modelled through the owning AP's numeric identity `apId` plus the interface
name; the cyclic `nbrs_radios` references become `(apId, ifname)` pairs and
the `nbrs` dictionary becomes a MAC-to-smoothed-RSSI association list. -/
structure SRadio where
  apId : ℕ
  name : String
  mac : String
  c : ℝ × ℝ
  r : ℝ
  txpwr : ℤ
  chnl : ℤ
  nbr_score : Option ℤ
  nbrs_rssi : List (String × ℤ)
  nbrs_radios : List (ℕ × String)

/-- The coverage-circle overlap test of `get_ref_nbr` (source lines
910-914): nonzero center distance and `d ≤ r + r'`. -/
def crosses (a b : SRadio) : Prop :=
  distance a.c b.c ≠ 0 ∧ distance a.c b.c ≤ a.r + b.r

/-- `ref_rd.ap != refN_ap`; comparison with Python `None` is always true. -/
def ap_ok (r : SRadio) : Option SRadio → Prop
  | none => True
  | some t => r.apId ≠ t.apId

/-- `refN_rd == None or refN_cross` (source line 915). -/
def cross_ok (r : SRadio) : Option SRadio → Prop
  | none => True
  | some t => crosses r t

/-- The break condition of the selection loop in `get_ref_nbr` (source
lines 905-918): the candidate is not on an excluded AP and, when
`need_cross` is set, overlaps every already-chosen reference. -/
def ref_sat (ref1 ref2 : Option SRadio) (need_cross : Bool) (r : SRadio) : Prop :=
  ap_ok r ref1 ∧ ap_ok r ref2 ∧
    (need_cross = true → cross_ok r ref1 ∧ cross_ok r ref2)

/-- The value of the loop variable `i` after `for i in range(len(l))` with a
conditional `break`: the first index satisfying the predicate, or the last
index (`len - 1`) when the loop falls through without breaking.  (On a
singleton both cases give index 0.) -/
noncomputable def loop_idx (P : SRadio → Prop) : List SRadio → ℕ
  | [] => 0
  | [_] => 0
  | r :: s :: t => if P r then 0 else loop_idx P (s :: t) + 1

/-- `get_ref_nbr` (source lines 894-947).  The four pools are concatenated
in the order `ref_nbrs0 + rref_nbrs0 + ref_nbrs1 + rref_nbrs1`; the loop
leaves `ref_rd = ref_nbrs[i]` whether or not a candidate broke the loop,
the chosen index is popped from its pool, and the FSPL/frequency pair is
computed from the forward or reverse direction depending on the pool.
`none` models a raised exception (`NameError` on empty pools because `i`
is unbound, or `KeyError` on a missing `nbrs` dictionary entry); the
updated pools are returned because the caller observes the pops. -/
noncomputable def get_ref_nbr (p00 p01 p10 p11 : List SRadio) (rd : SRadio)
    (ref1 ref2 : Option SRadio) (need_cross : Bool) :
    Option (SRadio × ℤ × ℚ × (List SRadio × List SRadio × List SRadio × List SRadio)) :=
  let ref_nbrs := p00 ++ p01 ++ p10 ++ p11
  if ref_nbrs.isEmpty then none
  else
    let i := loop_idx (ref_sat ref1 ref2 need_cross) ref_nbrs

    match ref_nbrs[i]? with
    | none => none
    | some ref_rd =>
      if i < p00.length then
        match rd.nbrs_rssi.lookup ref_rd.mac with
        | none => none
        | some rssi =>
          some (ref_rd, ref_rd.txpwr - rssi, ieee2ghz ref_rd.chnl,
            (p00.eraseIdx i, p01, p10, p11))
      else if i < p00.length + p01.length then
        match ref_rd.nbrs_rssi.lookup rd.mac with
        | none => none
        | some rssi =>
          some (ref_rd, rd.txpwr - rssi, ieee2ghz rd.chnl,
            (p00, p01.eraseIdx (i - p00.length), p10, p11))
      else if i < p00.length + p01.length + p10.length then
        match rd.nbrs_rssi.lookup ref_rd.mac with
        | none => none
        | some rssi =>
          some (ref_rd, ref_rd.txpwr - rssi, ieee2ghz ref_rd.chnl,
            (p00, p01, p10.eraseIdx (i - p00.length - p01.length), p11))
      else
        match ref_rd.nbrs_rssi.lookup rd.mac with
        | none => none
        | some rssi =>
          some (ref_rd, rd.txpwr - rssi, ieee2ghz rd.chnl,
            (p00, p01, p10, p11.eraseIdx (i - p00.length - p01.length - p10.length)))

/-- An AP as seen by the positioning sweep.  `radios` truthiness is
modelled as the presence of `rd0`: `setup_radio` always creates `wifi0`
first (source line 785), so a nonempty `radios` dictionary has a `wifi0`
entry. -/
structure SAp where
  id : ℕ
  rd0 : Option SRadio
  rd1 : Option SRadio

/-- Python truthiness of an optional integer attribute (`None` and `0` are
falsy). -/
def py_truthy_int : Option ℤ → Bool
  | none => false
  | some z => z != 0

/-- The sweep's candidate filter (source line 997):
`[a for a in APS.values() if a.radios and a.radios[IFNAME_WIFI0].nbr_score]`. -/
def aps_nscore_filter (aps : List SAp) : List SAp :=
  aps.filter fun a =>
    match a.rd0 with
    | none => false
    | some r => py_truthy_int r.nbr_score

/-- The sort key of line 999, `a.radios[IFNAME_WIFI0].nbr_score` (always an
integer after the filter). -/
def score_key (a : SAp) : ℤ := ((a.rd0.bind (·.nbr_score)).getD 0)

/-- Stable descending insertion used to model Python's
`sorted(..., reverse=True)`. -/
def sort_ins (key : SAp → ℤ) (a : SAp) : List SAp → List SAp
  | [] => [a]
  | b :: t => if key b ≤ key a then a :: b :: t else b :: sort_ins key a t

/-- Stable descending sort, modelling `sorted(..., reverse=True)` of line
999. -/
def sort_desc (key : SAp → ℤ) : List SAp → List SAp
  | [] => []
  | x :: xs => sort_ins key x (sort_desc key xs)

/-- Radios of placed APs carry their assigned center: placement writes
`rd.c`, so later reads through the live object see the updated coordinate. -/
def upd_c (pl : List (ℕ × (ℝ × ℝ))) (a : SRadio) : SRadio :=
  { a with c := (pl.lookup a.apId).getD a.c }

/-- A forward reference pool (source lines 1031-1035):
`[r for r in rd0.nbrs_radios if r.ap in aps and r.name == ifn]`, with the
neighbor references resolved against the placed APs. -/
def fwd_pool (placed : List SAp) (pl : List (ℕ × (ℝ × ℝ))) (rd0 : SRadio)
    (ifn : String) : List SRadio :=
  rd0.nbrs_radios.filterMap fun x =>
    if (placed.any fun a => a.id == x.1) && (x.2 == ifn) then
      match placed.find? (fun a => a.id == x.1) with
      | none => none
      | some a => ((if x.2 == IFNAME_WIFI0 then a.rd0 else a.rd1).map (upd_c pl))
    else none

/-- The reverse wifi0 pool (source line 1037):
`[a.radios[wifi0] for a in aps if rd0 in a.radios[wifi0].nbrs_radios]`. -/
def rev_pool0 (placed : List SAp) (pl : List (ℕ × (ℝ × ℝ))) (rd0 : SRadio) :
    List SRadio :=
  placed.filterMap fun a =>
    match a.rd0 with
    | none => none
    | some w0 =>
      if (rd0.apId, rd0.name) ∈ w0.nbrs_radios then some (upd_c pl w0) else none

/-- The reverse wifi1 pool (source line 1040).  `a.radios[IFNAME_WIFI1]` is
accessed unconditionally, so a placed AP without a second radio raises
`KeyError` (modelled as `none`, which kills the sweep). -/
def rev_pool1 (placed : List SAp) (pl : List (ℕ × (ℝ × ℝ))) (rd0 : SRadio) :
    Option (List SRadio) :=
  if placed.all (fun a => a.rd1.isSome) then
    some (placed.filterMap fun a =>
      match a.rd1 with
      | none => none
      | some w1 =>
        if (rd0.apId, rd0.name) ∈ w1.nbrs_radios then some (upd_c pl w1) else none)
  else none

/-- Outcome of the loop body of Stage B for one candidate AP. -/
inductive StepRes
  | placedAt (c : ℝ × ℝ)
  | deferred
  | skipped
  | crash

/-- One iteration of the Stage B loop of `calc_ap_coord` for candidate `ap`
(source lines 1005-1152), in `auto` mode, given the already placed APs and
their assigned coordinates. -/
noncomputable def sweep_step (mpd : ℝ) (placed : List SAp)
    (pl : List (ℕ × (ℝ × ℝ))) (ap : SAp) : StepRes :=
  match ap.rd0 with
  | none => .crash
  | some rd0 =>
    let required : ℕ := min placed.length 3
    let p00 := fwd_pool placed pl rd0 IFNAME_WIFI0
    let p10 := fwd_pool placed pl rd0 IFNAME_WIFI1
    let p01 := rev_pool0 placed pl rd0
    match rev_pool1 placed pl rd0 with
    | none => .crash
    | some p11 =>
      let uaps := (((p00 ++ p10 ++ p01 ++ p11).map (·.apId)).dedup).length
      if uaps < required then .deferred
      else if required = 0 then
        .placedAt (((CANVAS_WIDTH / 2 : ℤ) : ℝ), ((CANVAS_HEIGHT / 2 : ℤ) : ℝ))
      else
        match get_ref_nbr p00 p01 p10 p11 rd0 none none false with
        | none => .skipped
        | some (ref1, fspl1, ghz1, pools1) =>
          let d1 := fspl_to_dots (fspl1 : ℝ) ((ghz1 : ℚ) : ℝ) mpd
          if required = 1 then .placedAt (place_req1 ref1.c d1)
          else
            match get_ref_nbr pools1.1 pools1.2.1 pools1.2.2.1 pools1.2.2.2
                rd0 (some ref1) none false with
            | none => .skipped
            | some (ref2, fspl2, ghz2, pools2) =>
              let d2 := fspl_to_dots (fspl2 : ℝ) ((ghz2 : ℚ) : ℝ) mpd
              if required = 2 then
                let points := circles_cpoints ref1.c (d1 : ℝ) ref2.c (d2 : ℝ) false
                if points.1 < 0 then .deferred
                else
                  match points.2[0]? with
                  | none => .crash
                  | some p => .placedAt p
              else
                match get_ref_nbr pools2.1 pools2.2.1 pools2.2.2.1 pools2.2.2.2
                    rd0 (some ref1) (some ref2) false with
                | none => .skipped
                | some (ref3, fspl3, ghz3, _) =>
                  let d3 := fspl_to_dots (fspl3 : ℝ) ((ghz3 : ℚ) : ℝ) mpd
                  match choose_cpoint_req3 ref1.c (d1 : ℝ) ref2.c (d2 : ℝ)
                      ref3.c (d3 : ℝ) with
                  | none => .deferred
                  | some p => .placedAt p

/-- The Stage B traversal (source lines 1004-1152): a worklist over the
filtered candidate list.  Deferred APs are re-appended once (guarded by
`aps_delayed`); `fuel` bounds the iteration count (each AP is processed at
most twice, so the initial `2n + 1` never runs out).  `none` models an
unhandled exception killing the positioning thread. -/
noncomputable def sweep_loop (mpd : ℝ) (rand : ℕ → ℝ × ℝ) (method : String) :
    ℕ → List SAp → List SAp → List (ℕ × (ℝ × ℝ)) → List ℕ → ℕ →
    Option (List (ℕ × (ℝ × ℝ)))
  | 0, _, _, _, _, _ => none
  | _ + 1, [], _, pl, _, _ => some pl
  | fuel + 1, ap :: q, placed, pl, delayed, k =>
    if placed.any (fun a => a.id == ap.id) then
      sweep_loop mpd rand method fuel q placed pl delayed k
    else if method == "random" then
      sweep_loop mpd rand method fuel q placed (pl ++ [(ap.id, rand k)]) delayed (k + 1)
    else if method == "manual" then
      sweep_loop mpd rand method fuel q placed pl delayed k
    else
      match sweep_step mpd placed pl ap with
      | .crash => none
      | .skipped => sweep_loop mpd rand method fuel q placed pl delayed k
      | .deferred =>
        if ap.id ∈ delayed then sweep_loop mpd rand method fuel q placed pl delayed k
        else sweep_loop mpd rand method fuel (q ++ [ap]) placed pl (delayed ++ [ap.id]) k
      | .placedAt c =>
        sweep_loop mpd rand method fuel q (placed ++ [ap]) (pl ++ [(ap.id, c)]) delayed k

/-- One full Stage B sweep: filter the AP list (line 997), optionally sort
by descending neighbor score (line 999), then run the traversal. -/
noncomputable def calc_sweep (mpd : ℝ) (rand : ℕ → ℝ × ℝ) (method : String)
    (nsOrder : Bool) (aps : List SAp) : Option (List (ℕ × (ℝ × ℝ))) :=
  let q0 := aps_nscore_filter aps
  let q := if nsOrder then sort_desc score_key q0 else q0
  sweep_loop mpd rand method (2 * q.length + 1) q [] [] [] 0

/-- Concrete scenario: wifi0 radio with no ACSP neighbors; its computed
score is the minimum integer. -/
noncomputable def exRadioMin : SRadio :=
  { apId := 7, name := IFNAME_WIFI0, mac := "m7", c := (0, 0), r := 0
    txpwr := 20, chnl := 6, nbr_score := some (calc_nbr_score (-90) [])
    nbrs_rssi := [], nbrs_radios := [] }

/-- Concrete scenario: single-radio AP owning `exRadioMin`. -/
noncomputable def exApMin : SAp := ⟨7, some exRadioMin, none⟩

/-- Concrete scenario: wifi0 radio with one weak neighbor; its computed
score is exactly 0. -/
noncomputable def exRadioZero : SRadio :=
  { apId := 8, name := IFNAME_WIFI0, mac := "m8", c := (0, 0), r := 0
    txpwr := 20, chnl := 6
    nbr_score := some (calc_nbr_score (-90) [⟨-89, some CHNL_STATE_RUN⟩])
    nbrs_rssi := [("x", -89)], nbrs_radios := [(9, IFNAME_WIFI0)] }

/-- Concrete scenario: single-radio AP owning `exRadioZero`. -/
noncomputable def exApZero : SAp := ⟨8, some exRadioZero, none⟩

/-- Concrete `get_ref_nbr` scenario: the radio whose coordinates are being
solved (AP 0). -/
noncomputable def exRd : SRadio :=
  ⟨0, IFNAME_WIFI0, "m0", (0, 0), 0, 20, 6, none, [], []⟩

/-- Concrete `get_ref_nbr` scenario: the already-chosen first reference, on
AP 1. -/
noncomputable def exRef1 : SRadio :=
  ⟨1, IFNAME_WIFI0, "m1", (0, 0), 0, 20, 6, none, [], []⟩

/-- Concrete pool radio on the excluded AP 1. -/
noncomputable def exPoolA : SRadio :=
  ⟨1, IFNAME_WIFI0, "ma", (0, 0), 0, 20, 6, none, [], []⟩

/-- Concrete pool radio on the excluded AP 1. -/
noncomputable def exPoolB : SRadio :=
  ⟨1, IFNAME_WIFI0, "mb", (0, 0), 0, 20, 6, none, [], []⟩

/-- Concrete pool radio on the excluded AP 1. -/
noncomputable def exPoolC : SRadio :=
  ⟨1, IFNAME_WIFI1, "mc", (0, 0), 0, 20, 6, none, [], []⟩

/-- Concrete pool radio on the excluded AP 1; it hears the candidate `exRd`
at RSSI -60. -/
noncomputable def exPoolD : SRadio :=
  ⟨1, IFNAME_WIFI1, "md", (0, 0), 0, 20, 6, none, [("m0", -60)], []⟩

/-- A truncation `pyint x = z` follows from the floor bounds when `z` is
nonnegative. -/
lemma pyint_eq_int {x : ℝ} {z : ℤ} (hz : 0 ≤ z) (h1 : (z : ℝ) ≤ x)
    (h2 : x < z + 1) : pyint x = z := by
  unfold pyint
  have hx : (0 : ℝ) ≤ x := le_trans (by exact_mod_cast hz) h1
  rw [if_pos hx, Int.floor_eq_iff]
  exact ⟨h1, h2⟩

/-- Raising `10 ^ (p/q)` to the `q`-th power recovers `10 ^ p`. -/
lemma ten_pow_qr (p q : ℕ) (hq : q ≠ 0) :
    ((10 : ℝ) ^ ((p : ℝ) / (q : ℝ))) ^ q = (10 : ℝ) ^ p := by
  have h10 : (0 : ℝ) ≤ 10 := by norm_num
  rw [← Real.rpow_natCast ((10 : ℝ) ^ ((p : ℝ) / (q : ℝ))) q, ← Real.rpow_mul h10,
    div_mul_cancel₀ _ (by exact_mod_cast hq : ((q : ℝ) ≠ 0)), Real.rpow_natCast]

/-- Lower-bound a rational power of 10 through an integer power comparison. -/
lemma rpow_le_of_pow_le {a : ℝ} {p q : ℕ} (hq : q ≠ 0)
    (h : a ^ q ≤ 10 ^ p) : a ≤ (10 : ℝ) ^ ((p : ℝ) / (q : ℝ)) := by
  refine le_of_pow_le_pow_left₀ hq (Real.rpow_nonneg (by norm_num) _) ?_
  rw [ten_pow_qr p q hq]
  exact h

/-- Upper-bound a rational power of 10 through an integer power comparison. -/
lemma rpow_lt_of_pow_lt {b : ℝ} {p q : ℕ} (hq : q ≠ 0) (hb : 0 ≤ b)
    (h : 10 ^ p < b ^ q) : (10 : ℝ) ^ ((p : ℝ) / (q : ℝ)) < b := by
  refine lt_of_pow_lt_pow_left₀ q hb ?_
  rw [ten_pow_qr p q hq]
  exact h

set_option maxHeartbeats 2000000 in
/-- Numeric bound: `238.5823 ≤ 10 ^ 2.378`, certified by the exact integer
comparison `2385823 ^ 500 ≤ 10 ^ 3189`. -/
lemma ten_rpow_2378_lb : (238.5823 : ℝ) ≤ (10 : ℝ) ^ ((1189 : ℝ) / 500) := by
  have h : ((1189 : ℕ) : ℝ) / ((500 : ℕ) : ℝ) = (1189 : ℝ) / 500 := by norm_num
  rw [← h]
  apply rpow_le_of_pow_le (by norm_num)
  rw [show (238.5823 : ℝ) = 2385823 / 10000 by norm_num, div_pow,
    div_le_iff₀ (by positivity)]
  norm_num

set_option maxHeartbeats 2000000 in
/-- Numeric bound: `10 ^ 2.378 < 238.826`, certified by the exact integer
comparison `10 ^ 2689 < 238826 ^ 500`. -/
lemma ten_rpow_2378_ub : (10 : ℝ) ^ ((1189 : ℝ) / 500) < (238.826 : ℝ) := by
  have h : ((1189 : ℕ) : ℝ) / ((500 : ℕ) : ℝ) = (1189 : ℝ) / 500 := by norm_num
  rw [← h]
  apply rpow_lt_of_pow_lt (by norm_num) (by norm_num)
  rw [show (238.826 : ℝ) = 238826 / 1000 by norm_num, div_pow,
    lt_div_iff₀ (by positivity)]
  norm_num

/-- The FSPL distance of the two-AP scenario: `fspl = 80`, `ghz = 2.437`,
`meters_per_dot = 0.1` give `int(10 ^ 1.99113 / 0.1) = 979` dots. -/
lemma fspl_dots_eval : fspl_to_dots 80 2.437 (1 / 10) = 979 := by
  have hL : (10 : ℝ) ^ Real.logb 10 2.437 = 2.437 :=
    Real.rpow_logb (by norm_num) (by norm_num) (by norm_num)
  have hexp : ((80 : ℝ) - 32.44 - 20 * Real.logb 10 2.437) / 20
      = (1189 : ℝ) / 500 - Real.logb 10 2.437 := by
    ring_nf
  have hV : (10 : ℝ) ^ (((80 : ℝ) - 32.44 - 20 * Real.logb 10 2.437) / 20) / (1 / 10)
      = (10 : ℝ) ^ ((1189 : ℝ) / 500) / 2.437 * 10 := by
    rw [hexp, Real.rpow_sub (by norm_num), hL]
    field_simp
  have h1 : (979 : ℝ) ≤ (10 : ℝ) ^ ((1189 : ℝ) / 500) / 2.437 * 10 := by
    rw [div_mul_eq_mul_div, le_div_iff₀ (by norm_num)]
    nlinarith [ten_rpow_2378_lb]
  have h2 : (10 : ℝ) ^ ((1189 : ℝ) / 500) / 2.437 * 10 < 980 := by
    rw [div_mul_eq_mul_div, div_lt_iff₀ (by norm_num)]
    nlinarith [ten_rpow_2378_ub]
  unfold fspl_to_dots
  rw [hV]
  exact pyint_eq_int (by norm_num) (by exact_mod_cast h1) (by push_cast; linarith)

/-- The square root of a perfect square evaluates to its root. -/
lemma sqrt_eq_num {m n : ℝ} (hm : 0 ≤ m) (h : m ^ 2 = n) : Real.sqrt n = m := by
  rw [← h, Real.sqrt_sq hm]

/-- Distance evaluation for the small intersection scenario. -/
lemma dist_small : distance ((0 : ℝ), 0) (8, 0) = 8 := by
  unfold distance
  norm_num
  exact sqrt_eq_num (by norm_num) (by norm_num)

set_option maxHeartbeats 2000000 in
/-- The circles around `(0,0)` and `(8,0)` with radii 5 meet at `(4, -3)`
(index 0) and `(4, 3)` (index 1). -/
lemma cc_small :
    circles_cpoints ((0 : ℝ), 0) 5 (8, 0) 5 false = (2, [((4 : ℝ), -3), (4, 3)]) := by
  have hs : Real.sqrt 147456 = 384 := sqrt_eq_num (by norm_num) (by norm_num)
  unfold circles_cpoints
  rw [dist_small]
  norm_num [hs]

/-- Distance from the first reference center to the third reference. -/
lemma dist_0010 : distance ((0 : ℝ), 0) (0, 10) = 10 := by
  unfold distance
  norm_num
  exact sqrt_eq_num (by norm_num) (by norm_num)

/-- Distance from the second reference center to the third reference. -/
lemma dist_8010 : distance ((8 : ℝ), 0) (0, 10) = Real.sqrt 164 := by
  unfold distance
  norm_num

/-- Distance from intersection point `(4, -3)` to the third reference. -/
lemma dist_p1 : distance ((4 : ℝ), -3) (0, 10) = Real.sqrt 185 := by
  unfold distance
  norm_num

/-- Distance from intersection point `(4, 3)` to the third reference. -/
lemma dist_p2 : distance ((4 : ℝ), 3) (0, 10) = Real.sqrt 65 := by
  unfold distance
  norm_num

/-- At `d3 = 14` the `req ≥ 3` step picks the second intersection point
`(4, 3)`: the center comparison `|14 - 10| < |14 - √164|` is false. -/
lemma choose_small :
    choose_cpoint_req3 ((0 : ℝ), 0) 5 (8, 0) 5 (0, 10) 14 = some ((4 : ℝ), 3) := by
  have h164le : Real.sqrt 164 ≤ 14 := by
    rw [show (14 : ℝ) = Real.sqrt 196 from (sqrt_eq_num (by norm_num) (by norm_num)).symm]
    exact Real.sqrt_le_sqrt (by norm_num)
  have h164ge : (10 : ℝ) ≤ Real.sqrt 164 := by
    rw [show (10 : ℝ) = Real.sqrt 100 from (sqrt_eq_num (by norm_num) (by norm_num)).symm]
    exact Real.sqrt_le_sqrt (by norm_num)
  unfold choose_cpoint_req3
  rw [cc_small, dist_0010, dist_8010]
  norm_num
  rw [abs_of_nonneg (by linarith : (0 : ℝ) ≤ 14 - Real.sqrt 164)]
  linarith

/-- The rule stated by the claim would pick `(4, -3)`: its distance to the
third reference matches `d3 = 14` strictly better than `(4, 3)`'s. -/
lemma spec_rule_small :
    |14 - distance ((4 : ℝ), -3) (0, 10)| < |14 - distance ((4 : ℝ), 3) (0, 10)| := by
  rw [dist_p1, dist_p2]
  have h185 : Real.sqrt 185 ≤ 14 := by
    rw [show (14 : ℝ) = Real.sqrt 196 from (sqrt_eq_num (by norm_num) (by norm_num)).symm]
    exact Real.sqrt_le_sqrt (by norm_num)
  have h65 : Real.sqrt 65 ≤ 14 := by
    rw [show (14 : ℝ) = Real.sqrt 196 from (sqrt_eq_num (by norm_num) (by norm_num)).symm]
    exact Real.sqrt_le_sqrt (by norm_num)
  have hlt : Real.sqrt 65 < Real.sqrt 185 := Real.sqrt_lt_sqrt (by norm_num) (by norm_num)
  rw [abs_of_nonneg (by linarith), abs_of_nonneg (by linarith)]
  linarith

/-- Distance evaluation for the spec's concrete intersection scenario. -/
lemma dist_wide : distance ((0 : ℝ), 0) (100, 0) = 100 := by
  unfold distance
  norm_num
  exact sqrt_eq_num (by norm_num) (by norm_num)

set_option maxHeartbeats 2000000 in
/-- The circles around `(0,0)` and `(100,0)` with radii 60 meet at
`(50, ±√1100)`, the lower point first. -/
lemma cc_wide :
    circles_cpoints ((0 : ℝ), 0) 60 (100, 0) 60 false =
      (2, [((50 : ℝ), -Real.sqrt 1100), (50, Real.sqrt 1100)]) := by
  have hs : Real.sqrt 440000000000 = 20000 * Real.sqrt 1100 := by
    rw [show (440000000000 : ℝ) = 20000 ^ 2 * 1100 by norm_num,
      Real.sqrt_mul (by positivity) 1100, Real.sqrt_sq (by norm_num)]
  unfold circles_cpoints
  rw [dist_wide]
  norm_num [hs]
  ring

/-- Distance from `(0,0)` to the spec example's third reference. -/
lemma dist_w3a : distance ((0 : ℝ), 0) (50, 200) = Real.sqrt 42500 := by
  unfold distance
  norm_num

/-- Distance from `(100,0)` to the spec example's third reference. -/
lemma dist_w3b : distance ((100 : ℝ), 0) (50, 200) = Real.sqrt 42500 := by
  unfold distance
  norm_num

/-- At the spec's example the two center distances tie, so the code falls
to the `else` branch and returns the upper point `(50, √1100)`. -/
lemma choose_wide :
    choose_cpoint_req3 ((0 : ℝ), 0) 60 (100, 0) 60 (50, 200) 170 =
      some ((50 : ℝ), Real.sqrt 1100) := by
  unfold choose_cpoint_req3
  rw [cc_wide, dist_w3a, dist_w3b]
  norm_num

/-- `√1100 ≈ 33.166`, matching the spec's rounded `33.17`. -/
lemma sqrt1100_bounds : (33.16 : ℝ) < Real.sqrt 1100 ∧ Real.sqrt 1100 < 33.17 := by
  constructor
  · have h : (33.16 : ℝ) = Real.sqrt (33.16 ^ 2) := (Real.sqrt_sq (by norm_num)).symm
    rw [h]
    exact Real.sqrt_lt_sqrt (by norm_num) (by norm_num)
  · have h : (33.17 : ℝ) = Real.sqrt (33.17 ^ 2) := (Real.sqrt_sq (by norm_num)).symm
    rw [h]
    exact Real.sqrt_lt_sqrt (by norm_num) (by norm_num)

/-- When no pool radio satisfies the break condition, the loop index is the
last index of the concatenated pool list. -/
lemma loop_idx_of_none {P : SRadio → Prop} :
    ∀ (l : List SRadio), (∀ x ∈ l, ¬ P x) → loop_idx P l = l.length - 1
  | [], _ => rfl
  | [_], _ => rfl
  | a :: b :: t, h => by
    have hna : ¬ P a := h a (by simp)
    have ih := loop_idx_of_none (b :: t) (fun x hx => h x (by simp at hx ⊢; tauto))
    simp only [loop_idx, if_neg hna, ih, List.length_cons]
    omega

/-- Indexing a nonempty list at its last position. -/
lemma getElem?_last : ∀ (l : List SRadio) (h : l ≠ []),
    l[l.length - 1]? = some (l.getLast h)
  | [a], _ => rfl
  | a :: b :: t, _ => by
    have ih := getElem?_last (b :: t) (by simp)
    simp only [List.length_cons] at ih ⊢
    rw [show t.length + 1 + 1 - 1 = t.length + 1 by omega, List.getElem?_cons_succ]
    rw [show t.length + 1 - 1 = t.length by omega] at ih
    rw [ih]
    congr 1

/-- Erasing the last index of a list drops its last element. -/
lemma eraseIdx_last : ∀ (l : List SRadio), l.eraseIdx (l.length - 1) = l.dropLast
  | [] => rfl
  | [_] => rfl
  | a :: b :: t => by
    have ih := eraseIdx_last (b :: t)
    simp only [List.length_cons] at ih ⊢
    rw [show t.length + 1 + 1 - 1 = t.length + 1 by omega, List.eraseIdx_cons_succ]
    rw [show t.length + 1 - 1 = t.length by omega] at ih
    rw [ih]
    rfl

/-- C2 counterexample: the claim asserts `ieee2ghz(0) = 1.0`, but channel 0
is remapped to the sentinel 200, which falls into the `c ≥ 27` branch and
yields `(5000 + 200·5)/1000 = 6.0`. -/
theorem C2_counterexample : ieee2ghz 0 = 6 ∧ ieee2ghz 0 ≠ 1 := by
  norm_num [ieee2ghz]

/-- C2 amended: `ieee2ghz` matches the spec's sample points on real
channels — `ieee2ghz(14) = 2.484`, `ieee2ghz(1) = 2.412`,
`ieee2ghz(36) = 5.180`, `ieee2ghz(165) = 5.825` — while the
undetermined-channel sentinel gives `ieee2ghz(0) = 6.0` (not 1.0). -/
theorem C2_amended :
    ieee2ghz 14 = 2.484 ∧ ieee2ghz 1 = 2.412 ∧ ieee2ghz 36 = 5.180 ∧
      ieee2ghz 165 = 5.825 ∧ ieee2ghz 0 = 6 := by
  refine ⟨?_, ?_, ?_, ?_, ?_⟩ <;> norm_num [ieee2ghz]

/-- C3 evaluation at the failing input: a discovered host whose platform
name starts with `SR` but whose `wifi0` probe output contains `Wifi0` is
NOT removed from the known-nodes set — `detect_ap` only logs an alert,
inserts the host into the AP map and enters the poller loop.  (A host whose
probe output lacks `Wifi0` is indeed removed with no poller, as the claim
describes for the general case.) -/
theorem C3_bug_eval :
    detect_ap ⟨true, some ["  Wifi0 interface up"], some ("0011", "hive0"),
        some "SR2024", false, false⟩ =
      { removed_from_nodes := false, sr_alert := true, added_to_aps := true
        poller_runs := true, crashed := false } ∧
    detect_ap ⟨true, some ["eth0 only"], some ("0011", "hive0"),
        some "Switch9", false, false⟩ =
      { removed_from_nodes := true, sr_alert := false, added_to_aps := false
        poller_runs := false, crashed := false } := by
  decide

/-- C4 counterexample: an iteration whose `Noise floor=` parse fails is
abandoned (`false`), yet the radio's state does not equal its state before
the iteration — `mode`, `phymode` and `band` were already overwritten. -/
theorem C4_counterexample :
    (update_radio_stats {} "Mode=access; Phymode=11ng; junk").2 = false ∧
    (update_radio_stats {} "Mode=access; Phymode=11ng; junk").1 ≠ ({} : RadioParse) ∧
    (update_radio_stats {} "Mode=access; Phymode=11ng; junk").1.mode = some "access" := by
  decide

/-- C4 amended: a parse failure abandons the iteration (the update reports
failure and the remaining fields are untouched, so the AP is simply retried
next tick), and the noise-floor smoothing state is never partially updated;
however, fields parsed before the failure point (`mode`, `phymode`, `band`)
do retain their newly parsed values. -/
theorem C4_amended :
    ∀ (r : RadioParse) (out : String),
      (update_radio_stats r out).2 = false →
      (update_radio_stats r out).1.nfloor_window = r.nfloor_window ∧
        (update_radio_stats r out).1.nfloor = r.nfloor := by
  intro r out h
  unfold update_radio_stats at h ⊢
  rcases hm : regex_capture out "Mode=" ";" with _ | m
  · simp [hm]
  · rcases hp : regex_capture out "Phymode=" ";" with _ | p
    · simp [hm, hp]
    · rcases hn : (regex_capture out "Noise floor=" "dBm;").bind py_int_of with _ | nf
      · simp [hm, hp, hn]
      · simp [hm, hp, hn] at h

/-- C4 witness: the amended theorem applied at the concrete failing
iteration of the counterexample. -/
theorem C4_amended_witness :
    (update_radio_stats {} "Mode=access; Phymode=11ng; junk").2 = false ∧
    (update_radio_stats {} "Mode=access; Phymode=11ng; junk").1.nfloor_window = [] ∧
    (update_radio_stats {} "Mode=access; Phymode=11ng; junk").1.nfloor = none := by
  have h := C4_amended {} "Mode=access; Phymode=11ng; junk" (by decide)
  exact ⟨by decide, h.1, h.2⟩

/-- C5 evaluation at the failing input: after two consecutive polls both
observing neighbor `m` (per-poll means -60 then -70), the per-neighbor RSSI
window holds a single sample `[-70]` — not `min(2, RF_SMOOTH_WINDOW) = 2`
samples — because `update_acsp_nbrs` rebuilds every `ACSPNbr` from scratch
each poll; the smoothed RSSI is just the last poll's mean. -/
theorem C5_bug_eval :
    update_acsp_nbrs (update_acsp_nbrs [] [("m", [⟨-60, 0, 0, 0⟩])])
        [("m", [⟨-70, 1, 2, 3⟩])] =
      [("m", { rssi_window := [-70], rssi := -70, sta_cnt := 1, crc_err := 2 })] ∧
    [(-70 : ℤ)].length = 1 ∧
    ¬ ([(-70 : ℤ)].length = min 2 RF_SMOOTH_WINDOW) := by
  decide

/-- C6 counterexample: for three neighbors in states Enable, Scanning, Init
with SNR 40 each, the computed score is 36 (integer floor divisions), not
`40/2 + 40/4 + 40/6 ≈ 36.67` as the claim's rational arithmetic asserts. -/
theorem C6_counterexample :
    calc_nbr_score (-90) [⟨-50, some CHNL_STATE_RUN⟩, ⟨-50, some CHNL_STATE_SCAN⟩,
        ⟨-50, some CHNL_STATE_INIT⟩] = 36 ∧
    ((36 : ℚ) ≠ 40 / 2 + 40 / 4 + 40 / 6) := by
  constructor
  · decide
  · norm_num

/-- C6 amended: the neighbor score sums `snr / 2`, `snr / 4`, `snr / 6`,
`snr / 8` per the neighbor's channel state, with Python 2 floor division,
so the Enable/Scanning/Init example with SNR 40 scores `20 + 10 + 6 = 36`;
a radio with no neighbors scores the minimum representable integer. -/
theorem C6_amended :
    calc_nbr_score (-90) [⟨-50, some CHNL_STATE_RUN⟩, ⟨-50, some CHNL_STATE_SCAN⟩,
        ⟨-50, some CHNL_STATE_INIT⟩] = 36 ∧
    calc_nbr_score (-90) [⟨-50, some CHNL_STATE_DISABLE⟩] = 20 ∧
    calc_nbr_score (-90) [⟨-50, some CHNL_STATE_LISTEN⟩] = 10 ∧
    calc_nbr_score (-90) [⟨-50, some CHNL_STATE_SCHED_WAIT⟩] = 6 ∧
    calc_nbr_score (-90) [⟨-50, none⟩] = 5 ∧
    calc_nbr_score (-90) [] = PY_MININT := by
  decide

/-- C1 evaluation at the failing input: with references at `(0,0)` and
`(8,0)`, `d1 = d2 = 5`, the circles meet at `p1 = (4,-3)` and `p2 = (4,3)`;
with the third reference at `(0,10)` and `d3 = 14` the engine places the AP
at `(4, 3)`, even though `(4, -3)` strictly minimizes
`|d3 - dist(p_i, ref3.c)|` — the code compares the distances from the
REFERENCE CENTERS to `ref3`, not from the intersection points.  At the
spec's own concrete example (references `(0,0)`/`(100,0)`, `d1 = d2 = 60`,
third reference `(50,200)`, `d3 = 170`) the center comparison ties, the
`else` branch fires, and the chosen point `(50, √1100) ≈ (50, 33.17)`
coincides with the claim's prediction. -/
theorem C1_bug_eval :
    choose_cpoint_req3 ((0 : ℝ), 0) 5 (8, 0) 5 (0, 10) 14 = some ((4 : ℝ), 3) ∧
    circles_cpoints ((0 : ℝ), 0) 5 (8, 0) 5 false = (2, [((4 : ℝ), -3), (4, 3)]) ∧
    |14 - distance ((4 : ℝ), -3) (0, 10)| < |14 - distance ((4 : ℝ), 3) (0, 10)| ∧
    choose_cpoint_req3 ((0 : ℝ), 0) 60 (100, 0) 60 (50, 200) 170 =
      some ((50 : ℝ), Real.sqrt 1100) ∧
    (33.16 : ℝ) < Real.sqrt 1100 ∧ Real.sqrt 1100 < 33.17 :=
  ⟨choose_small, cc_small, spec_rule_small, choose_wide,
    sqrt1100_bounds.1, sqrt1100_bounds.2⟩

/-- C7 counterexample: with the first AP at `(400, 300)`, `fspl = 80`,
`ghz = 2.437` and `meters_per_dot = 0.1`, the second AP is NOT placed at
`(1372, 300)`: the FSPL distance is 979 dots, not 972. -/
theorem C7_counterexample :
    place_req1 (400, 300) (fspl_to_dots 80 2.437 (1 / 10)) ≠ ((1372 : ℝ), 300) := by
  rw [fspl_dots_eval]
  unfold place_req1
  norm_num [Prod.ext_iff]

/-- C7 amended: the second placed AP goes to `(ref1.x + d1, ref1.y)` with
`d1 = int(10 ^ ((fspl - 32.44 - 20*log10(ghz)) / 20) / meters_per_dot)`, so
its y-coordinate always equals the first AP's; at the spec's concrete
input (`fspl = 80`, `ghz = 2.437`, `meters_per_dot = 0.1`, first AP at
`(400, 300)`) the distance is `d1 = 979` dots and the placement is
`(1379, 300)`. -/
theorem C7_amended :
    fspl_to_dots 80 2.437 (1 / 10) = 979 ∧
    place_req1 (400, 300) (fspl_to_dots 80 2.437 (1 / 10)) = ((1379 : ℝ), 300) ∧
    ∀ (c : ℝ × ℝ) (d : ℤ), (place_req1 c d).2 = c.2 := by
  refine ⟨fspl_dots_eval, ?_, fun c d => rfl⟩
  rw [fspl_dots_eval]
  unfold place_req1
  norm_num [Prod.ext_iff]

/-- C8: the coverage radius is the stated pure function of transmit power,
channel, fleet noise floor, margin and scale; at `txpwr = 20`, `chnl = 36`
(so `ghz = 5.18`), `RF_AVR_NFLOOR = -90`, margin `50` and
`meters_per_dot = 0.1` it evaluates to 46 canvas dots. -/
theorem C8_theorem : coverage_radius 20 36 (-90) 50 (1 / 10) = 46 := by
  have hg : ((ieee2ghz 36 : ℚ) : ℝ) = 5.18 := by norm_num [ieee2ghz]
  have hL : (10 : ℝ) ^ Real.logb 10 (5.18 : ℝ) = 5.18 :=
    Real.rpow_logb (by norm_num) (by norm_num) (by norm_num)
  have hexp : (((20 : ℤ) : ℝ) - 32.44 - 20 * Real.logb 10 (5.18 : ℝ)
        - (((-90 : ℤ) : ℝ) + ((50 : ℤ) : ℝ))) / 20
      = (689 : ℝ) / 500 - Real.logb 10 (5.18 : ℝ) := by
    push_cast
    ring_nf
  have hV : (10 : ℝ) ^ ((689 : ℝ) / 500 - Real.logb 10 (5.18 : ℝ)) / (1 / 10)
      = (10 : ℝ) ^ ((1189 : ℝ) / 500) / 5.18 := by
    rw [Real.rpow_sub (by norm_num), hL,
      show (1189 : ℝ) / 500 = 689 / 500 + 1 by norm_num,
      Real.rpow_add (by norm_num), Real.rpow_one]
    field_simp
  have h1 : (46 : ℝ) ≤ (10 : ℝ) ^ ((1189 : ℝ) / 500) / 5.18 := by
    rw [le_div_iff₀ (by norm_num)]
    nlinarith [ten_rpow_2378_lb]
  have h2 : (10 : ℝ) ^ ((1189 : ℝ) / 500) / 5.18 < 47 := by
    rw [div_lt_iff₀ (by norm_num)]
    nlinarith [ten_rpow_2378_ub]
  unfold coverage_radius
  show pyint ((10 : ℝ) ^ ((((20 : ℤ) : ℝ) - 32.44
      - 20 * Real.logb 10 ((ieee2ghz 36 : ℚ) : ℝ)
      - (((-90 : ℤ) : ℝ) + ((50 : ℤ) : ℝ))) / 20) / (1 / 10)) = 46
  rw [hg, hexp, hV]
  exact pyint_eq_int (by norm_num) (by exact_mod_cast h1) (by push_cast; linarith)

/-- C10: when the four pools given to `get_ref_nbr` are non-empty but no
pool radio satisfies the selection constraints (`ref_sat`), the function
does not signal failure: the loop falls through on the last examined radio
(the last element of the last pool), which is popped from its pool and
returned together with a reverse-direction FSPL and the candidate's own
frequency, even though it violates the constraints. -/
theorem C10_theorem
    (p00 p01 p10 p11 : List SRadio) (rd : SRadio) (ref1 ref2 : Option SRadio)
    (nc : Bool) (rssi : ℤ)
    (h00 : p00 ≠ []) (h01 : p01 ≠ []) (h10 : p10 ≠ []) (h11 : p11 ≠ [])
    (hnone : ∀ r ∈ p00 ++ p01 ++ p10 ++ p11, ¬ ref_sat ref1 ref2 nc r)
    (hlook : (p11.getLast h11).nbrs_rssi.lookup rd.mac = some rssi) :
    get_ref_nbr p00 p01 p10 p11 rd ref1 ref2 nc =
      some (p11.getLast h11, rd.txpwr - rssi, ieee2ghz rd.chnl,
        (p00, p01, p10, p11.dropLast)) ∧
    ¬ ref_sat ref1 ref2 nc (p11.getLast h11) := by
  have hd : 0 < p11.length := List.length_pos.mpr h11
  have hidx := loop_idx_of_none (P := ref_sat ref1 ref2 nc)
    (p00 ++ p01 ++ p10 ++ p11) hnone
  have hne : (p00 ++ p01 ++ p10 ++ p11) ≠ [] := by
    simp [h11]
  have hlen : (p00 ++ p01 ++ p10 ++ p11).length
      = p00.length + p01.length + p10.length + p11.length := by
    simp [List.length_append]
    omega
  have hget : (p00 ++ p01 ++ p10 ++ p11)[(p00 ++ p01 ++ p10 ++ p11).length - 1]?
      = some (p11.getLast h11) := by
    have hassoc : p00 ++ p01 ++ p10 ++ p11 = (p00 ++ p01 ++ p10) ++ p11 := by
      simp [List.append_assoc]
    rw [hassoc, List.getElem?_append_right (by simp [List.length_append]; omega)]
    have harg : ((p00 ++ p01 ++ p10) ++ p11).length - 1 - (p00 ++ p01 ++ p10).length
        = p11.length - 1 := by
      simp [List.length_append]
      omega
    rw [harg, getElem?_last p11 h11]
  have hc1 : ¬ ((p00 ++ p01 ++ p10 ++ p11).length - 1 < p00.length) := by
    rw [hlen]; omega
  have hc2 : ¬ ((p00 ++ p01 ++ p10 ++ p11).length - 1 < p00.length + p01.length) := by
    rw [hlen]; omega
  have hc3 : ¬ ((p00 ++ p01 ++ p10 ++ p11).length - 1
      < p00.length + p01.length + p10.length) := by
    rw [hlen]; omega
  have harg : (p00 ++ p01 ++ p10 ++ p11).length - 1 - p00.length - p01.length
      - p10.length = p11.length - 1 := by
    rw [hlen]; omega
  constructor
  · simp only [get_ref_nbr]
    rw [if_neg (by simpa [List.isEmpty_iff] using hne), hidx, hget]
    simp only []
    rw [if_neg hc1, if_neg hc2, if_neg hc3, hlook]
    simp only []
    rw [harg, eraseIdx_last p11]
  · exact hnone _ (by simp [List.mem_append, List.getLast_mem])

/-- C10 witness: candidate radio `exRd` (AP 0) with the first reference on
AP 1 and all four pools holding only AP 1 radios; the fall-through returns
the last pool's radio `exPoolD` (popped), with `fspl = 20 - (-60) = 80` and
the candidate's own channel frequency, although `exPoolD` is excluded. -/
theorem C10_witness :
    get_ref_nbr [exPoolA] [exPoolB] [exPoolC] [exPoolD] exRd (some exRef1) none false =
      some (exPoolD, 80, ieee2ghz 6, ([exPoolA], [exPoolB], [exPoolC], [])) ∧
    ¬ ref_sat (some exRef1) none false exPoolD := by
  have hnone : ∀ r ∈ [exPoolA] ++ [exPoolB] ++ [exPoolC] ++ [exPoolD],
      ¬ ref_sat (some exRef1) none false r := by
    intro r hr
    simp only [List.mem_append, List.mem_singleton] at hr
    rcases hr with ((h | h) | h) | h <;> subst h <;>
      simp [ref_sat, ap_ok, exPoolA, exPoolB, exPoolC, exPoolD, exRef1]
  have hlook : (([exPoolD].getLast (by simp)).nbrs_rssi).lookup exRd.mac = some (-60) := by
    simp [exPoolD, exRd, List.lookup]
  have h := C10_theorem [exPoolA] [exPoolB] [exPoolC] [exPoolD] exRd (some exRef1) none
    false (-60) (by simp) (by simp) (by simp) (by simp) hnone hlook
  refine ⟨?_, h.2⟩
  rw [h.1]
  simp [exPoolD, exRd]

/-- C9: the sweep's candidate filter tests `nbr_score` for truthiness, so a
wifi0 radio whose computed score is exactly 0 — reachable, e.g. one Enable
neighbor with `snr = 1` gives `1 / 2 = 0` — is excluded from the traversal
(and hence from placement) that sweep, while a wifi0 radio with no
neighbors scores `PY_MININT` (truthy), passes the filter, and as the first
AP is placed at the canvas center `(400, 300)`. -/
theorem C9_theorem :
    calc_nbr_score (-90) [⟨-89, some CHNL_STATE_RUN⟩] = 0 ∧
    aps_nscore_filter [exApZero] = [] ∧
    calc_nbr_score (-90) [] = PY_MININT ∧
    aps_nscore_filter [exApMin] = [exApMin] ∧
    calc_sweep (1 / 10) (fun _ => (0, 0)) "auto" false [exApMin] =
      some [(7, ((400 : ℝ), 300))] := by
  have h0 : calc_nbr_score (-90) [⟨-89, some CHNL_STATE_RUN⟩] = 0 := by decide
  have hm : calc_nbr_score (-90) [] = PY_MININT := by decide
  have hfilt0 : aps_nscore_filter [exApZero] = [] := by
    simp [aps_nscore_filter, exApZero, exRadioZero, py_truthy_int, h0]
  have hfiltm : aps_nscore_filter [exApMin] = [exApMin] := by
    simp [aps_nscore_filter, exApMin, exRadioMin, py_truthy_int, hm,
      show ((PY_MININT != 0) = true) by decide]
  refine ⟨h0, hfilt0, hm, hfiltm, ?_⟩
  unfold calc_sweep
  rw [hfiltm]
  simp only [if_neg (by decide : ¬ false = true)]
  simp [sweep_loop, sweep_step, fwd_pool, rev_pool0, rev_pool1, exApMin, exRadioMin,
    CANVAS_WIDTH, CANVAS_HEIGHT]

end Acspmon
